import Mathlib

/-!
Shallow embedding of the Neon Snake simulation core (src/main.js, iteration 18).

Pure translation conventions:
  - JS numbers holding grid coordinates are `Int`; JS `%` on the nonnegative
    dividends produced by the wrap formula agrees with `Int.emod`.
  - Scores and lengths are `Nat`; milliseconds and probability draws are `Rat`.
  - `Math.random()` results are passed in explicitly through a `RandSrc`
    record, one field per draw site, so every run of a function is a
    deterministic function of its inputs.
  - `localStorage` is modelled by the `storedHighScore` field of the state.
-/

namespace NeonSnake

/-- Game grid and timing constants (main.js lines 9-23). -/
def BASE_GAME_SPEED : ℚ := 135

def SPEED_INCREASE_RATE : ℚ := 0.075

def MIN_GAME_SPEED : ℚ := 45

def MAX_FRUITS : ℕ := 5

def MAX_BOMBS : ℕ := 4

def BASE_BOMB_SPAWN_CHANCE : ℚ := 0.3

def MIN_BOMB_SPAWN_CHANCE : ℚ := 0.05

def MAX_BOMB_DESPAWN_CHANCE : ℚ := 0.25

/-- The game-state enum GAME_STATES (main.js lines 33-38). -/
inductive GState where
  | menu
  | playing
  | paused
  | game_over
deriving DecidableEq, Repr

/-- A grid cell or direction vector: a JS object with numeric x, y. -/
structure Cell where
  x : ℤ
  y : ℤ
deriving DecidableEq, Repr

/-- The optional special effect carried by a fruit type (main.js lines 140-141). -/
inductive Effect where
  | none
  | speedreset
  | shrink
deriving DecidableEq, Repr

/-- A fruit object as pushed by spawnFruit (main.js lines 215-222). -/
structure Fruit where
  x : ℤ
  y : ℤ
  shape : String
  points : ℕ
  color : String
  effect : Effect
deriving DecidableEq, Repr

/-- An entry of the FRUIT_TYPES catalog (main.js lines 135-142). -/
structure FruitType where
  shape : String
  weight : ℚ
  points : ℕ
  effect : Effect
deriving DecidableEq, Repr

/-- FRUIT_TYPES (main.js lines 135-142). -/
def FRUIT_TYPES : List FruitType :=
  [ { shape := "circle", weight := 0.39, points := 5, effect := Effect.none },
    { shape := "triangle", weight := 0.29, points := 10, effect := Effect.none },
    { shape := "diamond", weight := 0.19, points := 25, effect := Effect.none },
    { shape := "star", weight := 0.09, points := 50, effect := Effect.none },
    { shape := "speedreset", weight := 0.02, points := 0, effect := Effect.speedreset },
    { shape := "shrink", weight := 0.02, points := 0, effect := Effect.shrink } ]

/-- FRUIT_COLORS (main.js line 145). -/
def FRUIT_COLORS : List String :=
  ["#f0f", "#0f0", "#f00", "#ff8800", "#00f", "#0ff"]

/-- The mutable global game state of main.js (lines 92-110), gathered into one
record.  `storedHighScore` models the localStorage slot. -/
structure GameState where
  snake : List Cell
  prevSnake : List Cell
  direction : Cell
  nextDirection : Cell
  fruits : List Fruit
  bombs : List Cell
  score : ℕ
  highScore : ℕ
  storedHighScore : ℕ
  speedResetScore : ℕ
  maxBombs : ℕ
  currentSnakeColor : String
  currentGameState : GState
  cols : ℤ
  rows : ℤ
deriving DecidableEq, Repr

/-- One value per Math.random() call site reached during a tick. -/
structure RandSrc where
  fruitTypeU : ℚ
  fruitPos : ℕ → ℚ × ℚ
  fruitColorU : ℚ
  bombRollU : ℚ
  bombPos : ℕ → ℚ × ℚ
  despawnRollU : ℚ
  despawnIdxU : ℚ

/-- getCurrentGameSpeed (main.js lines 124-128). -/
def getCurrentGameSpeed (score speedResetScore : ℕ) : ℚ :=
  max MIN_GAME_SPEED
    (BASE_GAME_SPEED - ((score : ℚ) - (speedResetScore : ℚ)) * SPEED_INCREASE_RATE)

/-- The cumulative-weight walk of selectWeightedFruitType (main.js lines 151-164);
the empty-list fallback returns the last catalog entry. -/
def selectWeightedAux (u : ℚ) (cumulativeWeight : ℚ) : List FruitType → FruitType
  | [] => { shape := "shrink", weight := 0.02, points := 0, effect := Effect.shrink }
  | ft :: rest =>
      if u < cumulativeWeight + ft.weight then ft
      else selectWeightedAux u (cumulativeWeight + ft.weight) rest

/-- selectWeightedFruitType (main.js lines 151-164). -/
def selectWeightedFruitType (u : ℚ) : FruitType :=
  selectWeightedAux u 0 FRUIT_TYPES

/-- The occupancy check inside generateSafePosition (main.js lines 180-183). -/
def isOccupied (g : GameState) (p : Cell) : Bool :=
  g.snake.any (fun segment => segment.x == p.x && segment.y == p.y) ||
  g.fruits.any (fun fruit => fruit.x == p.x && fruit.y == p.y) ||
  g.bombs.any (fun bomb => bomb.x == p.x && bomb.y == p.y)

/-- Math.floor(Math.random() * cols) paired with the row draw
(main.js lines 175-176); `d` is the pair of uniform draws in [0,1). -/
def drawCell (g : GameState) (d : ℚ × ℚ) : Cell :=
  { x := ⌊d.1 * (g.cols : ℚ)⌋, y := ⌊d.2 * (g.rows : ℚ)⌋ }

/-- The bounded do/while of generateSafePosition: try the draws one by one
until a free cell appears or the attempt budget runs out. -/
def generateSafePositionAux (g : GameState) (draws : ℕ → ℚ × ℚ) :
    ℕ → ℕ → Option Cell
  | _, 0 => Option.none
  | i, fuel + 1 =>
      let p := drawCell g (draws i)
      if isOccupied g p then generateSafePositionAux g draws (i + 1) fuel
      else some p

/-- generateSafePosition (main.js lines 170-191), maxAttempts = 100. -/
def generateSafePosition (g : GameState) (draws : ℕ → ℚ × ℚ) : Option Cell :=
  generateSafePositionAux g draws 0 100

/-- The color chosen for a spawned fruit (main.js lines 205-213). -/
def spawnColor (r : RandSrc) (ft : FruitType) : String :=
  match ft.effect with
  | Effect.speedreset => "#8a2be2"
  | Effect.shrink => "#f2ff00ff"
  | Effect.none => FRUIT_COLORS.getD (⌊r.fruitColorU * (FRUIT_COLORS.length : ℚ)⌋.toNat) ("#0ff")

/-- The fruit object pushed by spawnFruit at position p (main.js lines 215-222). -/
def mkSpawnedFruit (r : RandSrc) (p : Cell) : Fruit :=
  { x := p.x, y := p.y,
    shape := (selectWeightedFruitType r.fruitTypeU).shape,
    points := (selectWeightedFruitType r.fruitTypeU).points,
    color := spawnColor r (selectWeightedFruitType r.fruitTypeU),
    effect := (selectWeightedFruitType r.fruitTypeU).effect }

/-- spawnFruit (main.js lines 196-223). -/
def spawnFruit (r : RandSrc) (g : GameState) : GameState :=
  if MAX_FRUITS ≤ g.fruits.length then g
  else
    match generateSafePosition g r.fruitPos with
    | Option.none => g
    | some p => { g with fruits := g.fruits ++ [mkSpawnedFruit r p] }

/-- calculateBombRates (main.js lines 232-249): (spawnRate, despawnRate). -/
def calculateBombRates (g : GameState) : ℚ × ℚ :=
  let bombDensity : ℚ :=
    if 0 < g.maxBombs then (g.bombs.length : ℚ) / (g.maxBombs : ℚ) else 0
  let spawnRate :=
    BASE_BOMB_SPAWN_CHANCE - bombDensity * (BASE_BOMB_SPAWN_CHANCE - MIN_BOMB_SPAWN_CHANCE)
  let despawnRate := bombDensity * MAX_BOMB_DESPAWN_CHANCE
  (max 0 (min 1 spawnRate), max 0 (min 1 despawnRate))

/-- spawnBomb (main.js lines 251-262). -/
def spawnBomb (r : RandSrc) (g : GameState) : GameState :=
  if g.maxBombs ≤ g.bombs.length then g
  else
    match generateSafePosition g r.bombPos with
    | Option.none => g
    | some p => { g with bombs := g.bombs ++ [p] }

/-- saveHighScore (main.js lines 287-294): write the localStorage slot. -/
def saveHighScore (s : ℕ) (g : GameState) : GameState :=
  { g with storedHighScore := s }

/-- endGame (main.js lines 531-542): enter GAME_OVER, then persist the score
when it beats the in-memory high score. -/
def endGame (g : GameState) : GameState :=
  if g.highScore < g.score then
    saveHighScore g.score
      { g with currentGameState := GState.game_over, highScore := g.score }
  else { g with currentGameState := GState.game_over }

/-- calculateNextPosition (main.js lines 497-507): head plus direction with
toroidal wrap.  The defensive undefined-parameter branch has no counterpart
here because all arguments are always present. -/
def calculateNextPosition (g : GameState) (currentPos dir : Cell) : Cell :=
  { x := (currentPos.x + dir.x + g.cols) % g.cols,
    y := (currentPos.y + dir.y + g.rows) % g.rows }

/-- The candidate head a tick is about to move into: snake[0] advanced by the
queued direction (gameLoop line 465 and updateGameState lines 567-570 compute
the same cell). -/
def newHeadOf (g : GameState) : Cell :=
  calculateNextPosition g (g.snake.headD { x := 0, y := 0 }) g.nextDirection

/-- checkGameEndingCollisions (main.js lines 514-526). -/
def checkGameEndingCollisions (g : GameState) (nextHeadPos : Cell) : Bool :=
  g.bombs.any (fun bomb => bomb.x == nextHeadPos.x && bomb.y == nextHeadPos.y) ||
  g.snake.any (fun segment => segment.x == nextHeadPos.x && segment.y == nextHeadPos.y)

/-- The special-fruit branch of handleFruitEaten (main.js lines 604-622),
applied after score and color are updated. -/
def applyEffect (eaten : Fruit) (g : GameState) : GameState :=
  match eaten.effect with
  | Effect.speedreset =>
      { g with speedResetScore := g.score,
               maxBombs := g.maxBombs + 1,
               snake := g.snake.dropLast }
  | Effect.shrink =>
      { g with maxBombs := g.maxBombs + 1,
               snake := (g.snake.take (max 1 (g.snake.length / 2))).dropLast }
  | Effect.none => g

/-- The bomb spawn roll at the end of handleFruitEaten (main.js
lines 628-633): rates are computed from the current bomb density, then a
spawn is attempted when the roll beats the spawn rate. -/
def bombSpawnStep (r : RandSrc) (g : GameState) : GameState :=
  if r.bombRollU < (calculateBombRates g).1 then spawnBomb r g else g

/-- The despawn roll that follows (main.js lines 635-638): the rates were
computed before the spawn roll, but the bomb count and the removal index
refer to the possibly enlarged list. -/
def bombRestock (r : RandSrc) (g : GameState) : GameState :=
  if r.despawnRollU < (calculateBombRates g).2 ∧ 0 < (bombSpawnStep r g).bombs.length then
    { bombSpawnStep r g with
      bombs := (bombSpawnStep r g).bombs.eraseIdx
        (⌊r.despawnIdxU * ((bombSpawnStep r g).bombs.length : ℚ)⌋.toNat) }
  else bombSpawnStep r g

/-- handleFruitEaten (main.js lines 592-639): splice out the fruit, add its
points, take its color, apply its effect, then restock fruit and bombs. -/
def handleFruitEaten (r : RandSrc) (i : ℕ) (g : GameState) : GameState :=
  match g.fruits[i]? with
  | Option.none => g
  | some eaten =>
      bombRestock r (spawnFruit r (applyEffect eaten
        { g with fruits := g.fruits.eraseIdx i,
                 score := g.score + eaten.points,
                 currentSnakeColor := eaten.color }))

/-- updateGameState (main.js lines 562-586): commit the queued direction,
unshift the wrapped new head, then either eat the first fruit found there or
pop the tail. -/
def updateGameState (r : RandSrc) (g : GameState) : GameState :=
  match g.fruits.findIdx?
      (fun fruit => fruit.x == (newHeadOf g).x && fruit.y == (newHeadOf g).y) with
  | some i =>
      handleFruitEaten r i
        { g with direction := g.nextDirection, snake := newHeadOf g :: g.snake }
  | Option.none =>
      { g with direction := g.nextDirection,
               snake := (newHeadOf g :: g.snake).dropLast }

/-- One iteration of the while body of gameLoop (main.js lines 457-481):
bail out on an uninitialized snake, end the game on a terminal collision,
otherwise snapshot prevSnake and run updateGameState. -/
def gameTick (r : RandSrc) (g : GameState) : GameState :=
  if g.snake.isEmpty then g
  else if checkGameEndingCollisions g (newHeadOf g) then endGame g
  else updateGameState r { g with prevSnake := g.snake }

/-- The accumulator drain loop of gameLoop (main.js lines 456-481).  `speed`
is the value of `currentSpeed`, computed once before the loop and used both
for the loop condition and for the decrement.  Returns the state, the
leftover accumulator and the number of ticks executed.  `fuel` bounds the
iteration count (the loop itself terminates because speed ≥ 45 > 0); `i`
indexes the per-tick random draws. -/
def drainLoop (rs : ℕ → RandSrc) (speed : ℚ) :
    ℕ → ℕ → GameState → ℚ → GameState × ℚ × ℕ
  | _, 0, g, acc => (g, acc, 0)
  | i, fuel + 1, g, acc =>
      if acc < speed then (g, acc, 0)
      else if g.snake.isEmpty then (g, acc, 0)
      else if checkGameEndingCollisions g (newHeadOf g) then (endGame g, acc, 0)
      else
        let t := drainLoop rs speed (i + 1) fuel (gameTick (rs i) g) (acc - speed)
        (t.1, t.2.1, t.2.2 + 1)

/-- One invocation of gameLoop (main.js lines 438-489) restricted to its
simulation effect: paused and ended states do not drain; otherwise the
elapsed `delta` is accumulated, `currentSpeed` is computed once from the
frame-start score, and the accumulator is drained in fixed steps of that
size.  The fuel passed to `drainLoop` exceeds the largest possible number of
iterations because every step subtracts at least MIN_GAME_SPEED. -/
def gameFrame (rs : ℕ → RandSrc) (g : GameState) (acc delta : ℚ) :
    GameState × ℚ × ℕ :=
  if g.currentGameState = GState.paused ∨ g.currentGameState = GState.game_over then
    (g, acc, 0)
  else
    drainLoop rs (getCurrentGameSpeed g.score g.speedResetScore) 0
      ((⌊(acc + delta) / MIN_GAME_SPEED⌋.toNat) + 1) g (acc + delta)

/-- Modelled from the spec: the drain loop of section 4.1 with `tickInterval`
"recomputed before each drain so speed changes take effect within the same
frame", i.e. the interval is re-derived from the current score before every
single step instead of once per frame.  Used only to compare the claimed
clock against the one the code implements. -/
def drainLoopSpecRecompute (rs : ℕ → RandSrc) :
    ℕ → ℕ → GameState → ℚ → GameState × ℚ × ℕ
  | _, 0, g, acc => (g, acc, 0)
  | i, fuel + 1, g, acc =>
      if acc < getCurrentGameSpeed g.score g.speedResetScore then (g, acc, 0)
      else if g.snake.isEmpty then (g, acc, 0)
      else if checkGameEndingCollisions g (newHeadOf g) then (endGame g, acc, 0)
      else
        let t := drainLoopSpecRecompute rs (i + 1) fuel (gameTick (rs i) g)
          (acc - getCurrentGameSpeed g.score g.speedResetScore)
        (t.1, t.2.1, t.2.2 + 1)

/-- Modelled from the spec: the frame function corresponding to
`drainLoopSpecRecompute` (every interval along the way is at least
MIN_GAME_SPEED, so the same fuel bound suffices). -/
def gameFrameSpecRecompute (rs : ℕ → RandSrc) (g : GameState) (acc delta : ℚ) :
    GameState × ℚ × ℕ :=
  if g.currentGameState = GState.paused ∨ g.currentGameState = GState.game_over then
    (g, acc, 0)
  else
    drainLoopSpecRecompute rs 0
      ((⌊(acc + delta) / MIN_GAME_SPEED⌋.toNat) + 1) g (acc + delta)

/-- The state reset of main.js lines 360-377 (initial game state) followed by the startGame
transition to PLAYING: all variables reset, the high score re-read from the
persistent slot (`loadHighScore`). -/
def initGameState (stored : ℕ) (cols rows : ℤ) : GameState :=
  { snake := [{ x := 0, y := 0 }],
    prevSnake := [],
    direction := { x := 1, y := 0 },
    nextDirection := { x := 1, y := 0 },
    fruits := [],
    bombs := [],
    score := 0,
    highScore := stored,
    storedHighScore := stored,
    speedResetScore := 0,
    maxBombs := MAX_BOMBS,
    currentSnakeColor := "#0ff",
    currentGameState := GState.playing,
    cols := cols,
    rows := rows }

/-- A session of consecutive games: each game starts via initGameState
(which reloads the persisted high score into `highScore`), reaches the given
final score, and ends via endGame.  Returns the persisted high score after
the whole sequence. -/
def runGames (stored : ℕ) : List ℕ → ℕ
  | [] => stored
  | f :: fs =>
      runGames ((endGame { initGameState stored 20 20 with score := f }).storedHighScore) fs

/-- Arrow keys handled by handleKeyPress (main.js lines 1071-1099). -/
inductive Key where
  | arrowUp
  | arrowDown
  | arrowLeft
  | arrowRight
deriving DecidableEq, Repr

/-- The direction a key requests. -/
def keyVector : Key → Cell
  | Key.arrowUp => { x := 0, y := -1 }
  | Key.arrowDown => { x := 0, y := 1 }
  | Key.arrowLeft => { x := -1, y := 0 }
  | Key.arrowRight => { x := 1, y := 0 }

/-- The movement-key part of handleKeyPress (main.js lines 1058-1100): only
in PLAYING state, and each arrow is dropped when the active direction is its
exact reverse. -/
def handleKeyPress (k : Key) (g : GameState) : GameState :=
  if g.currentGameState ≠ GState.playing then g
  else
    match k with
    | Key.arrowUp =>
        if g.direction.y ≠ 1 then { g with nextDirection := { x := 0, y := -1 } } else g
    | Key.arrowDown =>
        if g.direction.y ≠ -1 then { g with nextDirection := { x := 0, y := 1 } } else g
    | Key.arrowLeft =>
        if g.direction.x ≠ 1 then { g with nextDirection := { x := -1, y := 0 } } else g
    | Key.arrowRight =>
        if g.direction.x ≠ -1 then { g with nextDirection := { x := 1, y := 0 } } else g

/-- handleTouchEnd (main.js lines 1117-1147) with the swipe deltas already
computed; mirrors the horizontal/vertical branch on the larger delta and the
same reverse-direction blocking as the keyboard. -/
def handleTouchEnd (dx dy : ℚ) (g : GameState) : GameState :=
  if g.currentGameState ≠ GState.playing then g
  else if |dy| < |dx| then
    if 0 < dx ∧ g.direction.x ≠ -1 then { g with nextDirection := { x := 1, y := 0 } }
    else if dx < 0 ∧ g.direction.x ≠ 1 then { g with nextDirection := { x := -1, y := 0 } }
    else g
  else
    if 0 < dy ∧ g.direction.y ≠ -1 then { g with nextDirection := { x := 0, y := 1 } }
    else if dy < 0 ∧ g.direction.y ≠ 1 then { g with nextDirection := { x := 0, y := -1 } }
    else g

/-- The direction a swipe with the given deltas requests, independent of any
blocking: the decision structure of handleTouchEnd without the
active-direction tests. -/
def swipeRequest (dx dy : ℚ) : Option Cell :=
  if |dy| < |dx| then
    if 0 < dx then some { x := 1, y := 0 }
    else if dx < 0 then some { x := -1, y := 0 }
    else Option.none
  else
    if 0 < dy then some { x := 0, y := 1 }
    else if dy < 0 then some { x := 0, y := -1 }
    else Option.none

/-- A fixed bundle of random draws used by the concrete evaluations: the
position draws land on the grid center, the type draw selects the first
catalog entry, and both bomb rolls fail. -/
def r0 : RandSrc :=
  { fruitTypeU := 0,
    fruitPos := fun _ => (1/2, 1/2),
    fruitColorU := 0,
    bombRollU := 1,
    bombPos := fun _ => (1/2, 1/2),
    despawnRollU := 1,
    despawnIdxU := 0 }

/-- The same draws for every tick of a frame. -/
def rs0 : ℕ → RandSrc := fun _ => r0

/-- A length-1 snake one cell left of a shrink fruit, heading right. -/
def gShrink1 : GameState :=
  { snake := [{ x := 5, y := 5 }],
    prevSnake := [],
    direction := { x := 1, y := 0 },
    nextDirection := { x := 1, y := 0 },
    fruits := [{ x := 6, y := 5, shape := "shrink", points := 0,
                 color := "#f2ff00ff", effect := Effect.shrink }],
    bombs := [],
    score := 0,
    highScore := 0,
    storedHighScore := 0,
    speedResetScore := 0,
    maxBombs := MAX_BOMBS,
    currentSnakeColor := "#0ff",
    currentGameState := GState.playing,
    cols := 12,
    rows := 12 }

/-- A length-4 snake one cell left of a shrink fruit, heading right. -/
def gShrink4 : GameState :=
  { gShrink1 with
    snake := [{ x := 5, y := 5 }, { x := 4, y := 5 }, { x := 3, y := 5 }, { x := 2, y := 5 }] }

/-- A length-1 snake one cell left of a 50-point star fruit, heading right;
used to drive one frame in which the first tick raises the score. -/
def gStar : GameState :=
  { gShrink1 with
    cols := 20,
    rows := 20,
    fruits := [{ x := 6, y := 5, shape := "star", points := 50,
                 color := "#f00", effect := Effect.none }] }

/-- A finished game that reached score 100 on a fresh persistent slot. -/
def gEnd100 : GameState :=
  { initGameState 0 20 20 with score := 100 }

/-- A bare 10 by 8 session used to exercise the wrap formula. -/
def gridW : GameState :=
  { gShrink1 with cols := 10, rows := 8 }

/-- A length-2 snake heading right into a bomb one cell ahead. -/
def gBombAhead : GameState :=
  { gShrink1 with
    snake := [{ x := 5, y := 5 }, { x := 4, y := 5 }],
    fruits := [],
    bombs := [{ x := 6, y := 5 }],
    score := 7 }

/-- A crowded board: the fruit cap and the current bomb capacity are both
already reached. -/
def gFull : GameState :=
  { gShrink1 with
    fruits :=
      [ { x := 1, y := 1, shape := "circle", points := 5, color := "#f0f", effect := Effect.none },
        { x := 2, y := 1, shape := "circle", points := 5, color := "#f0f", effect := Effect.none },
        { x := 3, y := 1, shape := "circle", points := 5, color := "#f0f", effect := Effect.none },
        { x := 4, y := 1, shape := "circle", points := 5, color := "#f0f", effect := Effect.none },
        { x := 5, y := 1, shape := "circle", points := 5, color := "#f0f", effect := Effect.none } ],
    bombs := [{ x := 0, y := 0 }],
    maxBombs := 1 }

/-! Helper lemmas about the spawn and restock steps. -/

/-- spawnFruit only ever changes the fruit list. -/
theorem spawnFruit_eq (r : RandSrc) (g : GameState) :
    ∃ fs, spawnFruit r g = { g with fruits := fs } := by
  unfold spawnFruit
  split
  · exact ⟨g.fruits, rfl⟩
  · split
    · exact ⟨g.fruits, rfl⟩
    · exact ⟨_, rfl⟩

/-- spawnFruit leaves the fruit list alone or appends one fruit. -/
theorem spawnFruit_fruits (r : RandSrc) (g : GameState) :
    (spawnFruit r g).fruits = g.fruits ∨
      ∃ nf, (spawnFruit r g).fruits = g.fruits ++ [nf] := by
  unfold spawnFruit
  split
  · exact Or.inl rfl
  · split
    · exact Or.inl rfl
    · exact Or.inr ⟨_, rfl⟩

/-- spawnBomb only ever changes the bomb list. -/
theorem spawnBomb_eq (r : RandSrc) (g : GameState) :
    ∃ bs, spawnBomb r g = { g with bombs := bs } := by
  unfold spawnBomb
  split
  · exact ⟨g.bombs, rfl⟩
  · split
    · exact ⟨g.bombs, rfl⟩
    · exact ⟨_, rfl⟩

/-- The bomb spawn roll only ever changes the bomb list. -/
theorem bombSpawnStep_eq (r : RandSrc) (g : GameState) :
    ∃ bs, bombSpawnStep r g = { g with bombs := bs } := by
  unfold bombSpawnStep
  obtain ⟨bs, hb⟩ := spawnBomb_eq r g
  split
  · exact ⟨bs, hb⟩
  · exact ⟨g.bombs, rfl⟩

/-- The bomb spawn/despawn rolls only ever change the bomb list. -/
theorem bombRestock_eq (r : RandSrc) (g : GameState) :
    ∃ bs, bombRestock r g = { g with bombs := bs } := by
  unfold bombRestock
  obtain ⟨bs, hb⟩ := bombSpawnStep_eq r g
  rw [hb]
  split
  · exact ⟨_, rfl⟩
  · exact ⟨bs, rfl⟩

/-- The fruit-then-bomb restock tail of handleFruitEaten changes only the
fruit and bomb lists, and the fruit list at most by appending one fruit. -/
theorem restockAfter_eq (r : RandSrc) (g : GameState) :
    ∃ fs bs, bombRestock r (spawnFruit r g) = { g with fruits := fs, bombs := bs } ∧
      (fs = g.fruits ∨ ∃ nf, fs = g.fruits ++ [nf]) := by
  obtain ⟨fs, hf⟩ := spawnFruit_eq r g
  obtain ⟨bs, hb⟩ := bombRestock_eq r { g with fruits := fs }
  refine ⟨fs, bs, ?_, ?_⟩
  · rw [hf, hb]
  · have := spawnFruit_fruits r g
    rw [hf] at this
    exact this

/-- A non-colliding tick with a nonempty snake is exactly updateGameState
after the prevSnake snapshot. -/
theorem gameTick_eq_update (r : RandSrc) (g : GameState)
    (hne : g.snake ≠ [])
    (hnc : checkGameEndingCollisions g (newHeadOf g) = false) :
    gameTick r g = updateGameState r { g with prevSnake := g.snake } := by
  unfold gameTick
  rw [if_neg, if_neg]
  · rw [hnc]
    simp
  · simp [hne]

/-- A tick that finds a fruit at the candidate head hands over to
handleFruitEaten on the state with the committed direction and the
unshifted head. -/
theorem gameTick_eat (r : RandSrc) (g : GameState) (i : ℕ)
    (hne : g.snake ≠ [])
    (hnc : checkGameEndingCollisions g (newHeadOf g) = false)
    (hfind : g.fruits.findIdx?
        (fun fr => fr.x == (newHeadOf g).x && fr.y == (newHeadOf g).y) = some i) :
    gameTick r g = handleFruitEaten r i
      { g with prevSnake := g.snake, direction := g.nextDirection,
               snake := newHeadOf g :: g.snake } := by
  rw [gameTick_eq_update r g hne hnc]
  unfold updateGameState
  have h1 : ({ g with prevSnake := g.snake } : GameState).fruits.findIdx?
      (fun fr => fr.x == (newHeadOf { g with prevSnake := g.snake }).x &&
        fr.y == (newHeadOf { g with prevSnake := g.snake }).y) = some i := hfind
  rw [h1]
  rfl

/-- handleFruitEaten unfolded at a valid fruit index. -/
theorem handleFruitEaten_eq (r : RandSrc) (i : ℕ) (g : GameState) (f : Fruit)
    (hf : g.fruits[i]? = some f) :
    handleFruitEaten r i g = bombRestock r (spawnFruit r (applyEffect f
      { g with fruits := g.fruits.eraseIdx i,
               score := g.score + f.points,
               currentSnakeColor := f.color })) := by
  unfold handleFruitEaten
  rw [hf]

/-- Dropping the last element of a prefix shortens the prefix by one. -/
theorem dropLast_take_eq (l : List Cell) (m : ℕ) (hm : m ≤ l.length) :
    (l.take m).dropLast = l.take (m - 1) := by
  rw [List.dropLast_eq_take, List.take_take, List.length_take]
  congr 1
  omega

/-- C7: the candidate head is the old head displaced by the direction with
each axis reduced modulo its grid dimension; for an in-bounds head on a
nonempty grid it stays in bounds, and a head at (cols-1, 5) moving right
wraps to (0, 5). -/
theorem wrap_invariant (g : GameState) (pos dir : Cell)
    (hc : 1 ≤ g.cols) (hr : 1 ≤ g.rows)
    (hx0 : 0 ≤ pos.x) (hx1 : pos.x < g.cols) (hy0 : 0 ≤ pos.y) (hy1 : pos.y < g.rows) :
    calculateNextPosition g pos dir =
      { x := (pos.x + dir.x + g.cols) % g.cols, y := (pos.y + dir.y + g.rows) % g.rows } ∧
    0 ≤ (calculateNextPosition g pos dir).x ∧
    (calculateNextPosition g pos dir).x < g.cols ∧
    0 ≤ (calculateNextPosition g pos dir).y ∧
    (calculateNextPosition g pos dir).y < g.rows ∧
    (pos.x = g.cols - 1 → pos.y = 5 → dir = { x := 1, y := 0 } → 5 < g.rows →
      calculateNextPosition g pos dir = { x := 0, y := 5 }) := by
  have hc0 : g.cols ≠ 0 := by omega
  have hr0 : g.rows ≠ 0 := by omega
  refine ⟨rfl, Int.emod_nonneg _ hc0, Int.emod_lt_of_pos _ (by omega),
    Int.emod_nonneg _ hr0, Int.emod_lt_of_pos _ (by omega), ?_⟩
  intro hpx hpy hdir hrows
  unfold calculateNextPosition
  rw [hpx, hpy, hdir]
  simp only [Cell.mk.injEq]
  refine ⟨?_, ?_⟩
  · rw [show g.cols - 1 + 1 + g.cols = 2 * g.cols by ring, Int.mul_emod_left]
  · rw [show (5 : ℤ) + 0 + g.rows = 5 + g.rows * 1 by ring, Int.add_mul_emod_self_left,
      Int.emod_eq_of_lt (by norm_num) hrows]

/-- Witness for wrap_invariant on a 10 by 8 grid with the head at (9, 5)
moving right. -/
theorem wrap_invariant_witness :
    calculateNextPosition gridW { x := 9, y := 5 } { x := 1, y := 0 } =
        { x := (9 + 1 + 10) % 10, y := (5 + 0 + 8) % 8 } ∧
      0 ≤ (calculateNextPosition gridW { x := 9, y := 5 } { x := 1, y := 0 }).x ∧
      (calculateNextPosition gridW { x := 9, y := 5 } { x := 1, y := 0 }).x < gridW.cols ∧
      0 ≤ (calculateNextPosition gridW { x := 9, y := 5 } { x := 1, y := 0 }).y ∧
      (calculateNextPosition gridW { x := 9, y := 5 } { x := 1, y := 0 }).y < gridW.rows ∧
      ((9 : ℤ) = gridW.cols - 1 → (5 : ℤ) = 5 →
        ({ x := 1, y := 0 } : Cell) = { x := 1, y := 0 } → 5 < gridW.rows →
        calculateNextPosition gridW { x := 9, y := 5 } { x := 1, y := 0 } = { x := 0, y := 5 }) :=
  wrap_invariant gridW { x := 9, y := 5 } { x := 1, y := 0 }
    (by norm_num [gridW]) (by norm_num [gridW]) (by norm_num) (by norm_num [gridW])
    (by norm_num) (by norm_num [gridW])

/-- C4: a tick whose candidate head hits a bomb or any pre-move snake cell
(the about-to-be-vacated tail included) moves to the terminal game-over
state and leaves snake, fruits, bombs and score untouched. -/
theorem collision_ends_game (r : RandSrc) (g : GameState)
    (hne : g.snake ≠ [])
    (hcol : (∃ b ∈ g.bombs, b = newHeadOf g) ∨ ∃ s ∈ g.snake, s = newHeadOf g) :
    (gameTick r g).currentGameState = GState.game_over ∧
    (gameTick r g).snake = g.snake ∧
    (gameTick r g).fruits = g.fruits ∧
    (gameTick r g).bombs = g.bombs ∧
    (gameTick r g).score = g.score := by
  have hc : checkGameEndingCollisions g (newHeadOf g) = true := by
    unfold checkGameEndingCollisions
    simp only [Bool.or_eq_true, List.any_eq_true]
    rcases hcol with ⟨b, hb, he⟩ | ⟨s, hs, he⟩
    · exact Or.inl ⟨b, hb, by rw [he]; simp⟩
    · exact Or.inr ⟨s, hs, by rw [he]; simp⟩
  have ht : gameTick r g = endGame g := by
    unfold gameTick
    rw [if_neg (by simp [hne]), if_pos hc]
  rw [ht]
  unfold endGame saveHighScore
  split <;> simp

/-- Witness for collision_ends_game: a snake heading right into a bomb. -/
theorem collision_ends_game_witness :
    (gameTick r0 gBombAhead).currentGameState = GState.game_over ∧
    (gameTick r0 gBombAhead).snake = gBombAhead.snake ∧
    (gameTick r0 gBombAhead).fruits = gBombAhead.fruits ∧
    (gameTick r0 gBombAhead).bombs = gBombAhead.bombs ∧
    (gameTick r0 gBombAhead).score = gBombAhead.score :=
  collision_ends_game r0 gBombAhead (by decide)
    (Or.inl ⟨{ x := 6, y := 5 }, by decide, by decide⟩)

/-- applyEffect does nothing for an effect-free fruit. -/
theorem applyEffect_none (f : Fruit) (g : GameState) (h : f.effect = Effect.none) :
    applyEffect f g = g := by
  unfold applyEffect
  rw [h]

/-- applyEffect for a speed-reset fruit. -/
theorem applyEffect_speedreset (f : Fruit) (g : GameState) (h : f.effect = Effect.speedreset) :
    applyEffect f g =
      { g with speedResetScore := g.score, maxBombs := g.maxBombs + 1,
               snake := g.snake.dropLast } := by
  unfold applyEffect
  rw [h]

/-- applyEffect for a shrink fruit. -/
theorem applyEffect_shrink (f : Fruit) (g : GameState) (h : f.effect = Effect.shrink) :
    applyEffect f g =
      { g with maxBombs := g.maxBombs + 1,
               snake := (g.snake.take (max 1 (g.snake.length / 2))).dropLast } := by
  unfold applyEffect
  rw [h]

/-- C5: a tick onto the first fruit found at the candidate head, when that
fruit has no special effect, removes exactly that fruit (a fresh fruit may be
restocked at the end of the list), grows the snake by exactly one segment,
adds exactly the points of the fruit, and takes over the color of the fruit. -/
theorem normal_fruit_tick (r : RandSrc) (g : GameState) (i : ℕ) (f : Fruit)
    (hne : g.snake ≠ [])
    (hnc : checkGameEndingCollisions g (newHeadOf g) = false)
    (hfind : g.fruits.findIdx?
        (fun fr => fr.x == (newHeadOf g).x && fr.y == (newHeadOf g).y) = some i)
    (hf : g.fruits[i]? = some f)
    (heff : f.effect = Effect.none) :
    (gameTick r g).snake.length = g.snake.length + 1 ∧
    (gameTick r g).score = g.score + f.points ∧
    (gameTick r g).currentSnakeColor = f.color ∧
    ((gameTick r g).fruits = g.fruits.eraseIdx i ∨
      ∃ nf, (gameTick r g).fruits = g.fruits.eraseIdx i ++ [nf]) := by
  rw [gameTick_eat r g i hne hnc hfind]
  rw [handleFruitEaten_eq r i
    { g with prevSnake := g.snake, direction := g.nextDirection,
             snake := newHeadOf g :: g.snake } f hf]
  rw [applyEffect_none f _ heff]
  obtain ⟨fs, bs, heq, hcase⟩ := restockAfter_eq r
    { g with prevSnake := g.snake, direction := g.nextDirection, snake := newHeadOf g :: g.snake,
             fruits := g.fruits.eraseIdx i, score := g.score + f.points,
             currentSnakeColor := f.color }
  rw [heq]
  refine ⟨by simp, rfl, rfl, ?_⟩
  simpa using hcase

/-- Witness for normal_fruit_tick: a length-1 snake eating a 50-point star. -/
theorem normal_fruit_tick_witness :
    (gameTick r0 gStar).snake.length = gStar.snake.length + 1 ∧
    (gameTick r0 gStar).score = gStar.score + 50 ∧
    (gameTick r0 gStar).currentSnakeColor = "#f00" ∧
    ((gameTick r0 gStar).fruits = gStar.fruits.eraseIdx 0 ∨
      ∃ nf, (gameTick r0 gStar).fruits = gStar.fruits.eraseIdx 0 ++ [nf]) :=
  normal_fruit_tick r0 gStar 0
    { x := 6, y := 5, shape := "star", points := 50, color := "#f00", effect := Effect.none }
    (by decide) (by decide) (by decide) (by decide) rfl

/-- C1 (amended): a tick onto a shrink fruit keeps a prefix from the head
end (candidate head first) whose length is (oldLength - 1) / 2: the code
halves the already-grown snake with a floor of one and then pops one more
tail segment. -/
theorem shrink_tick_amended (r : RandSrc) (g : GameState) (i : ℕ) (f : Fruit)
    (hne : g.snake ≠ [])
    (hnc : checkGameEndingCollisions g (newHeadOf g) = false)
    (hfind : g.fruits.findIdx?
        (fun fr => fr.x == (newHeadOf g).x && fr.y == (newHeadOf g).y) = some i)
    (hf : g.fruits[i]? = some f)
    (heff : f.effect = Effect.shrink) :
    (gameTick r g).snake = (newHeadOf g :: g.snake).take ((g.snake.length - 1) / 2) ∧
    (gameTick r g).snake.length = (g.snake.length - 1) / 2 := by
  have hL : 1 ≤ g.snake.length := List.length_pos.mpr hne
  rw [gameTick_eat r g i hne hnc hfind]
  rw [handleFruitEaten_eq r i
    { g with prevSnake := g.snake, direction := g.nextDirection,
             snake := newHeadOf g :: g.snake } f hf]
  rw [applyEffect_shrink f _ heff]
  obtain ⟨fs, bs, heq, -⟩ := restockAfter_eq r _
  rw [heq]
  simp only [List.length_cons]
  have hm : max 1 ((g.snake.length + 1) / 2) = (g.snake.length + 1) / 2 := by
    omega
  rw [hm, dropLast_take_eq _ _ (by simp; omega)]
  have harith : (g.snake.length + 1) / 2 - 1 = (g.snake.length - 1) / 2 := by
    omega
  rw [harith]
  refine ⟨rfl, ?_⟩
  rw [List.length_take]
  simp only [List.length_cons]
  omega

/-- Witness for shrink_tick_amended: a length-4 snake eating a shrink fruit
ends the tick with (4 - 1) / 2 = 1 segment. -/
theorem shrink_tick_amended_witness :
    (gameTick r0 gShrink4).snake =
        (newHeadOf gShrink4 :: gShrink4.snake).take ((gShrink4.snake.length - 1) / 2) ∧
    (gameTick r0 gShrink4).snake.length = (gShrink4.snake.length - 1) / 2 :=
  shrink_tick_amended r0 gShrink4 0
    { x := 6, y := 5, shape := "shrink", points := 0, color := "#f2ff00ff",
      effect := Effect.shrink }
    (by decide) (by decide) (by decide) (by decide) rfl

/-- Full evaluation of the shrink tick on the length-4 snake. -/
theorem tick_gShrink4_snake : (gameTick r0 gShrink4).snake = [{ x := 6, y := 5 }] := by
  norm_num [gameTick, newHeadOf, calculateNextPosition, checkGameEndingCollisions,
    updateGameState, handleFruitEaten, applyEffect, spawnFruit, generateSafePosition,
    generateSafePositionAux, drawCell, isOccupied, mkSpawnedFruit, spawnColor,
    selectWeightedFruitType, selectWeightedAux, bombRestock, bombSpawnStep,
    calculateBombRates, spawnBomb, endGame, saveHighScore, FRUIT_TYPES, FRUIT_COLORS,
    MAX_FRUITS, MAX_BOMBS, BASE_GAME_SPEED, MIN_GAME_SPEED, SPEED_INCREASE_RATE,
    BASE_BOMB_SPAWN_CHANCE, MIN_BOMB_SPAWN_CHANCE, MAX_BOMB_DESPAWN_CHANCE,
    gShrink4, gShrink1, r0, List.findIdx?, List.eraseIdx]

/-- C1 (counterexample): the length-4 snake that eats a shrink fruit ends the
tick with 1 segment, not max(1, floor(4 / 2)) = 2 as the claim states. -/
theorem shrink_claim_counterexample :
    (gameTick r0 gShrink4).snake.length ≠ max 1 (gShrink4.snake.length / 2) := by
  rw [tick_gShrink4_snake]
  decide

/-- Full evaluation of the shrink tick on the length-1 snake. -/
theorem tick_gShrink1_snake : (gameTick r0 gShrink1).snake = [] := by
  norm_num [gameTick, newHeadOf, calculateNextPosition, checkGameEndingCollisions,
    updateGameState, handleFruitEaten, applyEffect, spawnFruit, generateSafePosition,
    generateSafePositionAux, drawCell, isOccupied, mkSpawnedFruit, spawnColor,
    selectWeightedFruitType, selectWeightedAux, bombRestock, bombSpawnStep,
    calculateBombRates, spawnBomb, endGame, saveHighScore, FRUIT_TYPES, FRUIT_COLORS,
    MAX_FRUITS, MAX_BOMBS, BASE_GAME_SPEED, MIN_GAME_SPEED, SPEED_INCREASE_RATE,
    BASE_BOMB_SPAWN_CHANCE, MIN_BOMB_SPAWN_CHANCE, MAX_BOMB_DESPAWN_CHANCE,
    gShrink1, r0, List.findIdx?, List.eraseIdx]

/-- C2: a playing state with a length-1 snake about to eat a shrink fruit is
a reachable configuration in which the tick leaves the snake with zero
segments, violating the length-at-least-one invariant (the next gameLoop
invocation then aborts with a console error and the game freezes). -/
theorem shrink_empties_snake :
    gShrink1.currentGameState = GState.playing ∧
    gShrink1.snake.length = 1 ∧
    (gameTick r0 gShrink1).snake.length = 0 := by
  refine ⟨rfl, rfl, ?_⟩
  rw [tick_gShrink1_snake]
  rfl

/-- C10: every catalog entry with a special effect is worth 0 points, and
eating a 0-point special fruit leaves the score unchanged while the tick
still mutates the display color, the bomb capacity, the speed baseline
(speed-reset) and the snake (shrink). -/
theorem special_fruit_zero_score :
    (∀ ft ∈ FRUIT_TYPES, ft.effect ≠ Effect.none → ft.points = 0) ∧
    ∀ (r : RandSrc) (g : GameState) (i : ℕ) (f : Fruit),
      g.fruits[i]? = some f → f.points = 0 →
      (f.effect = Effect.speedreset ∨ f.effect = Effect.shrink) →
      (handleFruitEaten r i g).score = g.score ∧
      (handleFruitEaten r i g).currentSnakeColor = f.color ∧
      (handleFruitEaten r i g).maxBombs = g.maxBombs + 1 ∧
      (f.effect = Effect.speedreset →
        (handleFruitEaten r i g).speedResetScore = g.score) ∧
      (f.effect = Effect.shrink →
        (handleFruitEaten r i g).snake = (g.snake.take (max 1 (g.snake.length / 2))).dropLast) := by
  refine ⟨by decide, ?_⟩
  intro r g i f hf hp heff
  rw [handleFruitEaten_eq r i g f hf, hp]
  rcases heff with he | he
  · rw [applyEffect_speedreset f _ he]
    obtain ⟨fs, bs, heq, -⟩ := restockAfter_eq r _
    rw [heq]
    refine ⟨by simp, rfl, rfl, fun _ => by simp, fun hsh => ?_⟩
    rw [he] at hsh
    cases hsh
  · rw [applyEffect_shrink f _ he]
    obtain ⟨fs, bs, heq, -⟩ := restockAfter_eq r _
    rw [heq]
    refine ⟨by simp, rfl, rfl, fun hsr => ?_, fun _ => by simp⟩
    rw [he] at hsr
    cases hsr

/-- Witness for special_fruit_zero_score at the shrink fruit of the
length-1 scenario. -/
theorem special_fruit_zero_score_witness :
    (handleFruitEaten r0 0 gShrink1).score = gShrink1.score ∧
    (handleFruitEaten r0 0 gShrink1).maxBombs = gShrink1.maxBombs + 1 := by
  have h := special_fruit_zero_score.2 r0 gShrink1 0
    { x := 6, y := 5, shape := "shrink", points := 0, color := "#f2ff00ff",
      effect := Effect.shrink }
    (by decide) rfl (Or.inr rfl)
  exact ⟨h.1, h.2.2.1⟩

/-- The leftover accumulator after a drain equals the initial accumulator
minus the tick count times the one fixed step size the whole drain used. -/
theorem drainLoop_leftover (rs : ℕ → RandSrc) (speed : ℚ) :
    ∀ (fuel i : ℕ) (g : GameState) (acc : ℚ),
      (drainLoop rs speed i fuel g acc).2.1
        = acc - ((drainLoop rs speed i fuel g acc).2.2 : ℚ) * speed := by
  intro fuel
  induction fuel with
  | zero =>
      intro i g acc
      simp [drainLoop]
  | succ n ih =>
      intro i g acc
      rw [drainLoop]
      split
      · simp
      · split
        · simp
        · split
          · simp
          · have h := ih (i + 1) (gameTick (rs i) g) (acc - speed)
            simp only
            rw [h]
            push_cast
            ring

/-- C3 (amended): the game speed is max(45, 135 - effectiveScore * 0.075)
with effectiveScore = score - speedResetScore, and one gameLoop invocation
computes this interval once, from the frame-start score, and drains the whole
accumulator in steps of that one size: score changes made by a tick take
effect at the next frame, not within the same frame. -/
theorem fixed_interval_per_frame :
    (∀ s r : ℕ,
      getCurrentGameSpeed s r = max 45 (135 - ((s : ℚ) - (r : ℚ)) * 0.075)) ∧
    (∀ (rs : ℕ → RandSrc) (speed : ℚ) (i fuel : ℕ) (g : GameState) (acc : ℚ),
      (drainLoop rs speed i fuel g acc).2.1
        = acc - ((drainLoop rs speed i fuel g acc).2.2 : ℚ) * speed) ∧
    (∀ (rs : ℕ → RandSrc) (g : GameState) (acc delta : ℚ),
      g.currentGameState = GState.playing →
      (gameFrame rs g acc delta).2.1
        = (acc + delta) -
            ((gameFrame rs g acc delta).2.2 : ℚ) *
              getCurrentGameSpeed g.score g.speedResetScore) := by
  refine ⟨fun s r => rfl, fun rs speed i fuel g acc => drainLoop_leftover rs speed fuel i g acc, ?_⟩
  intro rs g acc delta hplay
  unfold gameFrame
  rw [hplay]
  simp only [reduceCtorEq, or_self, if_false]
  exact drainLoop_leftover rs _ _ _ g (acc + delta)

/-- Witness for fixed_interval_per_frame on the star-fruit frame. -/
theorem fixed_interval_per_frame_witness :
    (gameFrame rs0 gStar 0 270).2.1
      = (0 + 270) -
          ((gameFrame rs0 gStar 0 270).2.2 : ℚ) *
            getCurrentGameSpeed gStar.score gStar.speedResetScore :=
  fixed_interval_per_frame.2.2 rs0 gStar 0 270 rfl

set_option maxRecDepth 16000 in
set_option maxHeartbeats 2000000 in
/-- Evaluation of one frame of the clock of the code on the star-fruit scenario:
two ticks run, both at the frame-start interval 135, leaving accumulator 0. -/
theorem frame_gStar_eval :
    (gameFrame rs0 gStar 0 270).2.1 = 0 ∧ (gameFrame rs0 gStar 0 270).2.2 = 2 := by
  norm_num [gameFrame, drainLoop, gameTick, newHeadOf, calculateNextPosition,
    checkGameEndingCollisions, updateGameState, handleFruitEaten, applyEffect, spawnFruit,
    generateSafePosition, generateSafePositionAux, drawCell, isOccupied, mkSpawnedFruit,
    spawnColor, selectWeightedFruitType, selectWeightedAux, bombRestock, bombSpawnStep,
    calculateBombRates, spawnBomb, endGame, saveHighScore, getCurrentGameSpeed,
    FRUIT_TYPES, FRUIT_COLORS, MAX_FRUITS, MAX_BOMBS, BASE_GAME_SPEED, MIN_GAME_SPEED,
    SPEED_INCREASE_RATE, BASE_BOMB_SPAWN_CHANCE, MIN_BOMB_SPAWN_CHANCE,
    MAX_BOMB_DESPAWN_CHANCE, gStar, gShrink1, r0, rs0, List.findIdx?, List.eraseIdx]
  rw [if_neg (show ¬(GState.playing = GState.paused ∨ GState.playing = GState.game_over)
    by decide)]
  exact ⟨rfl, rfl⟩

set_option maxRecDepth 16000 in
set_option maxHeartbeats 2000000 in
/-- Evaluation of the spec-modelled recomputing clock on the same scenario:
after the first tick eats the 50-point star the recomputed interval 131.25
still fits into the remaining 135, so the second tick leaves 3.75. -/
theorem frameSpec_gStar_eval :
    (gameFrameSpecRecompute rs0 gStar 0 270).2.1 = 15 / 4 := by
  norm_num [gameFrameSpecRecompute, drainLoopSpecRecompute, gameTick, newHeadOf,
    calculateNextPosition, checkGameEndingCollisions, updateGameState, handleFruitEaten,
    applyEffect, spawnFruit, generateSafePosition, generateSafePositionAux, drawCell,
    isOccupied, mkSpawnedFruit, spawnColor, selectWeightedFruitType, selectWeightedAux,
    bombRestock, bombSpawnStep, calculateBombRates, spawnBomb, endGame, saveHighScore,
    getCurrentGameSpeed, FRUIT_TYPES, FRUIT_COLORS, MAX_FRUITS, MAX_BOMBS,
    BASE_GAME_SPEED, MIN_GAME_SPEED, SPEED_INCREASE_RATE, BASE_BOMB_SPAWN_CHANCE,
    MIN_BOMB_SPAWN_CHANCE, MAX_BOMB_DESPAWN_CHANCE, gStar, gShrink1, r0, rs0,
    List.findIdx?, List.eraseIdx]
  rw [if_neg (show ¬(GState.playing = GState.paused ∨ GState.playing = GState.game_over)
    by decide)]

/-- C3 (counterexample): in the star-fruit frame the clock of the code and the
claimed recompute-before-each-drain clock leave different accumulators, so
the speed change from the first tick does not take effect within the same
frame. -/
theorem same_frame_speed_counterexample :
    (gameFrame rs0 gStar 0 270).2.1 = 0 ∧
    (gameFrameSpecRecompute rs0 gStar 0 270).2.1 = 15 / 4 ∧
    (gameFrame rs0 gStar 0 270).2.1 ≠ (gameFrameSpecRecompute rs0 gStar 0 270).2.1 := by
  refine ⟨frame_gStar_eval.1, frameSpec_gStar_eval, ?_⟩
  rw [frame_gStar_eval.1, frameSpec_gStar_eval]
  norm_num

/-- C6: at game end the persisted slot is written exactly when the score
beats the stored value (the in-memory high score is in sync with the slot at
game start), it is written with that score, and across any sequence of games
the stored value never decreases. -/
theorem highscore_persistence :
    (∀ g : GameState, g.highScore = g.storedHighScore →
      ((endGame g).storedHighScore =
        if g.storedHighScore < g.score then g.score else g.storedHighScore) ∧
      g.storedHighScore ≤ (endGame g).storedHighScore) ∧
    ∀ (stored : ℕ) (finals : List ℕ), stored ≤ runGames stored finals := by
  have hone : ∀ g : GameState, g.highScore = g.storedHighScore →
      ((endGame g).storedHighScore =
        if g.storedHighScore < g.score then g.score else g.storedHighScore) ∧
      g.storedHighScore ≤ (endGame g).storedHighScore := by
    intro g h
    unfold endGame saveHighScore
    rw [← h]
    constructor
    · split_ifs <;> simp
    · split_ifs with hlt
      · simp only
        omega
      · simp
  refine ⟨hone, ?_⟩
  intro stored finals
  induction finals generalizing stored with
  | nil => simp [runGames]
  | cons f fs ih =>
      rw [runGames]
      refine le_trans ?_ (ih _)
      exact (hone { initGameState stored 20 20 with score := f } rfl).2

/-- Witness for highscore_persistence: ending a 100-point game on a fresh
slot writes 100, and a session never lowers the slot. -/
theorem highscore_persistence_witness :
    ((endGame gEnd100).storedHighScore =
      if gEnd100.storedHighScore < gEnd100.score then gEnd100.score
      else gEnd100.storedHighScore) ∧
    gEnd100.storedHighScore ≤ (endGame gEnd100).storedHighScore ∧
    0 ≤ runGames 0 [100, 50] := by
  have h := highscore_persistence.1 gEnd100 rfl
  exact ⟨h.1, h.2, highscore_persistence.2 0 [100, 50]⟩

/-- C8: while playing, a direction request (key or swipe) equal to the exact
reverse of the active direction leaves the whole state, the queued direction
included, unchanged; any other request overwrites the queued direction, so
the acceptance test reads the active direction, not the queued one. -/
theorem no_reversal_input (g : GameState)
    (hplay : g.currentGameState = GState.playing)
    (hdir : g.direction = { x := 1, y := 0 } ∨ g.direction = { x := -1, y := 0 } ∨
      g.direction = { x := 0, y := 1 } ∨ g.direction = { x := 0, y := -1 }) :
    (∀ k : Key, keyVector k = { x := -g.direction.x, y := -g.direction.y } →
      handleKeyPress k g = g) ∧
    (∀ k : Key, keyVector k ≠ { x := -g.direction.x, y := -g.direction.y } →
      (handleKeyPress k g).nextDirection = keyVector k) ∧
    (∀ dx dy : ℚ, swipeRequest dx dy = some { x := -g.direction.x, y := -g.direction.y } →
      handleTouchEnd dx dy g = g) ∧
    (∀ (dx dy : ℚ) (c : Cell), swipeRequest dx dy = some c →
      c ≠ { x := -g.direction.x, y := -g.direction.y } →
      (handleTouchEnd dx dy g).nextDirection = c) := by
  refine ⟨?_, ?_, ?_, ?_⟩
  · intro k hk
    rcases hdir with hd | hd | hd | hd <;>
      cases k <;>
        simp_all [handleKeyPress, keyVector, hplay, hd, Cell.mk.injEq]
  · intro k hk
    rcases hdir with hd | hd | hd | hd <;>
      cases k <;>
        simp_all [handleKeyPress, keyVector, hplay, hd, Cell.mk.injEq]
  · intro dx dy hs
    unfold swipeRequest at hs
    unfold handleTouchEnd
    rcases hdir with hd | hd | hd | hd <;>
      split_ifs at hs ⊢ <;>
        first
          | (exfalso; linarith)
          | simp_all [hplay, hd, Cell.mk.injEq]
  · intro dx dy c hs hc
    unfold swipeRequest at hs
    unfold handleTouchEnd
    rw [if_neg (show ¬(g.currentGameState ≠ GState.playing) by simp [hplay])]
    split_ifs at hs with h1 h2 h3 h4 h5
    all_goals cases hs
    all_goals rcases hdir with hd | hd | hd | hd
    all_goals rw [hd] at hc
    all_goals split_ifs with hA hB
    all_goals try rfl
    all_goals (exfalso; revert hA; try revert hB)
    all_goals simp [hd, Cell.mk.injEq]
    all_goals intros
    all_goals first | linarith | simp_all

/-- Witness for no_reversal_input: with the snake moving right, a left
request is dropped and an up request overwrites the queued direction. -/
theorem no_reversal_input_witness :
    handleKeyPress Key.arrowLeft gShrink1 = gShrink1 ∧
    (handleKeyPress Key.arrowUp gShrink1).nextDirection = keyVector Key.arrowUp ∧
    handleTouchEnd (-3) 1 gShrink1 = gShrink1 ∧
    (handleTouchEnd 1 (-9) gShrink1).nextDirection = { x := 0, y := -1 } := by
  have h := no_reversal_input gShrink1 rfl (Or.inl rfl)
  refine ⟨h.1 Key.arrowLeft (by decide), h.2.1 Key.arrowUp (by decide), ?_, ?_⟩
  · refine h.2.2.1 (-3) 1 ?_
    norm_num [swipeRequest, gShrink1, abs]
  · refine h.2.2.2 1 (-9) { x := 0, y := -1 } ?_ (by decide)
    norm_num [swipeRequest, abs]

/-- A successful generateSafePosition result was one of the supplied draws
and is unoccupied. -/
theorem gspAux_some (g : GameState) (draws : ℕ → ℚ × ℚ) :
    ∀ (fuel i : ℕ) (p : Cell),
      generateSafePositionAux g draws i fuel = some p →
      isOccupied g p = false ∧ ∃ j, p = drawCell g (draws j) := by
  intro fuel
  induction fuel with
  | zero => intro i p h; simp [generateSafePositionAux] at h
  | succ n ih =>
      intro i p h
      simp only [generateSafePositionAux] at h
      by_cases hocc : isOccupied g (drawCell g (draws i)) = true
      · rw [if_pos hocc] at h
        exact ih (i + 1) p h
      · rw [if_neg hocc] at h
        rw [Option.some.injEq] at h
        subst h
        exact ⟨by simpa using hocc, i, rfl⟩

/-- When every draw in the attempt window is occupied, the search gives up. -/
theorem gspAux_none (g : GameState) (draws : ℕ → ℚ × ℚ) :
    ∀ (fuel i : ℕ),
      (∀ j, i ≤ j → j < i + fuel → isOccupied g (drawCell g (draws j)) = true) →
      generateSafePositionAux g draws i fuel = Option.none := by
  intro fuel
  induction fuel with
  | zero => intro i h; rfl
  | succ n ih =>
      intro i h
      simp only [generateSafePositionAux]
      rw [if_pos (h i le_rfl (by omega))]
      exact ih (i + 1) (fun j hj1 hj2 => h j (by omega) (by omega))

/-- A cell drawn from uniform values in [0,1) lies inside the grid. -/
theorem drawCell_in_grid (g : GameState) (d : ℚ × ℚ)
    (hc : 1 ≤ g.cols) (hr : 1 ≤ g.rows)
    (h1 : 0 ≤ d.1) (h2 : d.1 < 1) (h3 : 0 ≤ d.2) (h4 : d.2 < 1) :
    0 ≤ (drawCell g d).x ∧ (drawCell g d).x < g.cols ∧
    0 ≤ (drawCell g d).y ∧ (drawCell g d).y < g.rows := by
  have hcq : (0 : ℚ) < (g.cols : ℚ) := by exact_mod_cast (by omega : (0:ℤ) < g.cols)
  have hrq : (0 : ℚ) < (g.rows : ℚ) := by exact_mod_cast (by omega : (0:ℤ) < g.rows)
  unfold drawCell
  refine ⟨?_, ?_, ?_, ?_⟩
  · exact Int.le_floor.mpr (by push_cast; exact mul_nonneg h1 (le_of_lt hcq))
  · refine Int.floor_lt.mpr ?_
    calc d.1 * (g.cols : ℚ) < 1 * (g.cols : ℚ) := mul_lt_mul_of_pos_right h2 hcq
      _ = (g.cols : ℚ) := one_mul _
  · exact Int.le_floor.mpr (by push_cast; exact mul_nonneg h3 (le_of_lt hrq))
  · refine Int.floor_lt.mpr ?_
    calc d.2 * (g.rows : ℚ) < 1 * (g.rows : ℚ) := mul_lt_mul_of_pos_right h4 hrq
      _ = (g.rows : ℚ) := one_mul _

/-- C9: a spawned fruit or bomb lands inside the grid on a cell free of
snake, fruits and bombs; when the fruit cap or the current bomb capacity is
reached, or all 100 position draws are occupied, nothing is spawned; and a
spawn changes nothing but its own object list, at most appending one
element. -/
theorem spawn_safety (r : RandSrc) (g : GameState)
    (hc : 1 ≤ g.cols) (hr : 1 ≤ g.rows)
    (hfd : ∀ i, 0 ≤ (r.fruitPos i).1 ∧ (r.fruitPos i).1 < 1 ∧
      0 ≤ (r.fruitPos i).2 ∧ (r.fruitPos i).2 < 1)
    (hbd : ∀ i, 0 ≤ (r.bombPos i).1 ∧ (r.bombPos i).1 < 1 ∧
      0 ≤ (r.bombPos i).2 ∧ (r.bombPos i).2 < 1) :
    (MAX_FRUITS ≤ g.fruits.length → spawnFruit r g = g) ∧
    (g.maxBombs ≤ g.bombs.length → spawnBomb r g = g) ∧
    ((∀ j, j < 100 → isOccupied g (drawCell g (r.fruitPos j)) = true) → spawnFruit r g = g) ∧
    ((∀ j, j < 100 → isOccupied g (drawCell g (r.bombPos j)) = true) → spawnBomb r g = g) ∧
    (∀ nf, (spawnFruit r g).fruits = g.fruits ++ [nf] →
      0 ≤ nf.x ∧ nf.x < g.cols ∧ 0 ≤ nf.y ∧ nf.y < g.rows ∧
      isOccupied g { x := nf.x, y := nf.y } = false) ∧
    (∀ p, (spawnBomb r g).bombs = g.bombs ++ [p] →
      0 ≤ p.x ∧ p.x < g.cols ∧ 0 ≤ p.y ∧ p.y < g.rows ∧ isOccupied g p = false) ∧
    ((spawnFruit r g).fruits = g.fruits ∨ ∃ nf, (spawnFruit r g).fruits = g.fruits ++ [nf]) ∧
    (∃ fs, spawnFruit r g = { g with fruits := fs }) ∧
    ((spawnBomb r g).bombs = g.bombs ∨ ∃ p, (spawnBomb r g).bombs = g.bombs ++ [p]) ∧
    (∃ bs, spawnBomb r g = { g with bombs := bs }) := by
  refine ⟨?_, ?_, ?_, ?_, ?_, ?_, spawnFruit_fruits r g, spawnFruit_eq r g, ?_, spawnBomb_eq r g⟩
  · intro h
    unfold spawnFruit
    rw [if_pos h]
  · intro h
    unfold spawnBomb
    rw [if_pos h]
  · intro h
    unfold spawnFruit generateSafePosition
    rw [gspAux_none g r.fruitPos 100 0 (fun j hj1 hj2 => h j (by omega))]
    split <;> rfl
  · intro h
    unfold spawnBomb generateSafePosition
    rw [gspAux_none g r.bombPos 100 0 (fun j hj1 hj2 => h j (by omega))]
    split <;> rfl
  · intro nf h
    unfold spawnFruit at h
    split at h
    · exact absurd (congrArg List.length h) (by simp)
    · split at h
      · exact absurd (congrArg List.length h) (by simp)
      · next p hp =>
          have hnf : nf = mkSpawnedFruit r p := by symm; simpa using h
          obtain ⟨hocc, j, hj⟩ := gspAux_some g r.fruitPos 100 0 p hp
          obtain ⟨h1, h2, h3, h4⟩ :=
            drawCell_in_grid g (r.fruitPos j) hc hr (hfd j).1 (hfd j).2.1 (hfd j).2.2.1 (hfd j).2.2.2
          obtain ⟨px, py⟩ := p
          rw [← hj] at h1 h2 h3 h4
          subst hnf
          exact ⟨h1, h2, h3, h4, by simpa using hocc⟩
  · intro p h
    unfold spawnBomb at h
    split at h
    · exact absurd (congrArg List.length h) (by simp)
    · split at h
      · exact absurd (congrArg List.length h) (by simp)
      · next q hq =>
          have hpq : p = q := by symm; simpa using h
          obtain ⟨hocc, j, hj⟩ := gspAux_some g r.bombPos 100 0 q hq
          obtain ⟨h1, h2, h3, h4⟩ :=
            drawCell_in_grid g (r.bombPos j) hc hr (hbd j).1 (hbd j).2.1 (hbd j).2.2.1 (hbd j).2.2.2
          rw [← hj] at h1 h2 h3 h4
          subst hpq
          exact ⟨h1, h2, h3, h4, hocc⟩
  · unfold spawnBomb
    split
    · exact Or.inl rfl
    · split
      · exact Or.inl rfl
      · exact Or.inr ⟨_, rfl⟩

/-- Witness for spawn_safety: on the crowded board both caps are reached and
both spawns are no-ops. -/
theorem spawn_safety_witness :
    spawnFruit r0 gFull = gFull ∧ spawnBomb r0 gFull = gFull := by
  have h := spawn_safety r0 gFull (by decide) (by decide)
    (fun i => by norm_num [r0]) (fun i => by norm_num [r0])
  exact ⟨h.1 (by decide), h.2.1 (by decide)⟩

end NeonSnake
